import Mathlib

/-!
Shallow embedding of `src/p4est_base.c` (p4est base layer): the allocation
accountant (`p4est_malloc`, `p4est_calloc`, `p4est_realloc`, `p4est_free`,
`p4est_memory_check`), the 32-bit integer comparator, the log2 lookup table,
the abort-handler installation state machine (`p4est_set_abort_handler`) and
the diagnostic line format of `p4est_abort`.

Modelling conventions:
* `size_t` values are `Nat`; where the C code performs `size_t` arithmetic
  that can wrap (the multiplication `nmemb * size` in `p4est_calloc`) the
  result is taken modulo `2 ^ 64` (a 64-bit `size_t`).
* `int32_t` values are `Int` in `[-2^31, 2^31)`; 32-bit two's-complement
  arithmetic is `Int` arithmetic reduced by `wrap32`.
* The platform allocator is not modelled; each wrapper takes a `Bool`
  argument recording whether the delegated `malloc`/`calloc`/`realloc`
  call returned `NULL`, which is the only fact about the delegate the
  counting code inspects.  Pointers passed in are likewise abstracted to
  whether they are `NULL`.
* The static counters `malloc_count` and `free_count` are the state
  threaded through the wrappers.
-/

namespace P4estBase

/-- The static counters `malloc_count` and `free_count` of `p4est_base.c`. -/
structure Counters where
  malloc_count : Nat
  free_count : Nat
deriving DecidableEq, Repr

/-- `p4est_malloc (size)`: `ret = malloc (size); if (size > 0) ++malloc_count;
else malloc_count += ((ret == NULL) ? 0 : 1);`.  `ret_null` records whether
the delegated `malloc` returned `NULL`. -/
def p4est_malloc (size : Nat) (ret_null : Bool) (c : Counters) : Counters :=
  if 0 < size then
    { c with malloc_count := c.malloc_count + 1 }
  else if ret_null then
    { c with malloc_count := c.malloc_count + 0 }
  else
    { c with malloc_count := c.malloc_count + 1 }

/-- `p4est_calloc (nmemb, size)`: as `p4est_malloc` but keyed on
`nmemb * size > 0`, where the multiplication is `size_t` arithmetic and
therefore wraps modulo `2 ^ 64`. -/
def p4est_calloc (nmemb size : Nat) (ret_null : Bool) (c : Counters) : Counters :=
  if 0 < nmemb * size % 2 ^ 64 then
    { c with malloc_count := c.malloc_count + 1 }
  else if ret_null then
    { c with malloc_count := c.malloc_count + 0 }
  else
    { c with malloc_count := c.malloc_count + 1 }

/-- `p4est_realloc (ptr, size)`: if `ptr == NULL`, count as `p4est_malloc`;
else if `size == 0`, `free_count += ((ret == NULL) ? 1 : 0)`; else no
counter changes.  `ptr_null` abstracts `ptr == NULL` and `ret_null` whether
the delegated `realloc` returned `NULL`. -/
def p4est_realloc (ptr_null : Bool) (size : Nat) (ret_null : Bool)
    (c : Counters) : Counters :=
  if ptr_null then
    if 0 < size then
      { c with malloc_count := c.malloc_count + 1 }
    else if ret_null then
      { c with malloc_count := c.malloc_count + 0 }
    else
      { c with malloc_count := c.malloc_count + 1 }
  else if size = 0 then
    if ret_null then
      { c with free_count := c.free_count + 1 }
    else
      { c with free_count := c.free_count + 0 }
  else
    c

/-- `p4est_free (ptr)`: `if (ptr != NULL) { ++free_count; free (ptr); }`.
The second component records whether the platform `free` was invoked. -/
def p4est_free (ptr_null : Bool) (c : Counters) : Counters × Bool :=
  if ptr_null then
    (c, false)
  else
    ({ c with free_count := c.free_count + 1 }, true)

/-- Modelled from the spec: the macro `P4EST_CHECK_ABORT` lives in
`p4est_base.h`, which is not part of the provided sources.  Per the spec it
"fails with a fatal balance error" when the condition is false and
"otherwise succeeds silently", the failure entering the fault pipeline's
abort path; `Except.error msg` stands for that fatal abort. -/
def P4EST_CHECK_ABORT (cond : Bool) (msg : String) : Except String Unit :=
  if cond then Except.ok () else Except.error msg

/-- `p4est_memory_check ()`:
`P4EST_CHECK_ABORT (malloc_count == free_count, "Memory balance")`. -/
def p4est_memory_check (c : Counters) : Except String Unit :=
  P4EST_CHECK_ABORT (c.malloc_count == c.free_count) "Memory balance"

/-- Reduce an exact integer into 32-bit two's-complement range. -/
def wrap32 (x : Int) : Int := (x + 2 ^ 31) % 2 ^ 32 - 2 ^ 31

/-- `p4est_int32_compare (v1, v2)`: `return (int32_t) v1 - (int32_t) v2;` —
the difference of the two 32-bit operands computed in (wrapping) 32-bit
arithmetic. -/
def p4est_int32_compare (a b : Int) : Int := wrap32 (a - b)

/-- The 256-entry constant `p4est_log_lookup_table` of `p4est_base.c`,
transcribed verbatim. -/
def p4est_log_lookup_table : List Int :=
  [ -1, 0, 1, 1, 2, 2, 2, 2, 3, 3, 3, 3, 3, 3, 3, 3,
    4, 4, 4, 4, 4, 4, 4, 4, 4, 4, 4, 4, 4, 4, 4, 4,
    5, 5, 5, 5, 5, 5, 5, 5, 5, 5, 5, 5, 5, 5, 5, 5,
    5, 5, 5, 5, 5, 5, 5, 5, 5, 5, 5, 5, 5, 5, 5, 5,
    6, 6, 6, 6, 6, 6, 6, 6, 6, 6, 6, 6, 6, 6, 6, 6,
    6, 6, 6, 6, 6, 6, 6, 6, 6, 6, 6, 6, 6, 6, 6, 6,
    6, 6, 6, 6, 6, 6, 6, 6, 6, 6, 6, 6, 6, 6, 6, 6,
    6, 6, 6, 6, 6, 6, 6, 6, 6, 6, 6, 6, 6, 6, 6, 6,
    7, 7, 7, 7, 7, 7, 7, 7, 7, 7, 7, 7, 7, 7, 7, 7,
    7, 7, 7, 7, 7, 7, 7, 7, 7, 7, 7, 7, 7, 7, 7, 7,
    7, 7, 7, 7, 7, 7, 7, 7, 7, 7, 7, 7, 7, 7, 7, 7,
    7, 7, 7, 7, 7, 7, 7, 7, 7, 7, 7, 7, 7, 7, 7, 7,
    7, 7, 7, 7, 7, 7, 7, 7, 7, 7, 7, 7, 7, 7, 7, 7,
    7, 7, 7, 7, 7, 7, 7, 7, 7, 7, 7, 7, 7, 7, 7, 7,
    7, 7, 7, 7, 7, 7, 7, 7, 7, 7, 7, 7, 7, 7, 7, 7,
    7, 7, 7, 7, 7, 7, 7, 7, 7, 7, 7, 7, 7, 7, 7, 7 ]

/-- Indexing `p4est_log_lookup_table` by a byte value. -/
def log2_floor (v : Fin 256) : Int := p4est_log_lookup_table.getD v.val 0

/-- A `sig_t` value: an OS signal disposition.  `dfl` is `SIG_DFL`, which on
POSIX is the null function pointer (so it also models the `NULL` the static
saved-handler variables are initialised and reset to); `p4est_internal` is
`p4est_signal_handler`; `custom n` is any other handler. -/
inductive Disposition where
  | dfl
  | ign
  | p4est_internal
  | custom (n : Nat)
deriving DecidableEq, Repr

/-- The static abort-handler state of `p4est_base.c`: `p4est_base_identifier`,
`p4est_abort_handler` (callbacks abstracted to `Option Nat`, `none` = `NULL`),
`p4est_abort_data` (opaque pointer abstracted to `Nat`), `signals_caught`,
and the three saved dispositions `system_int_handler`, `system_segv_handler`,
`system_usr2_handler`. -/
structure FaultState where
  p4est_base_identifier : Int
  p4est_abort_handler : Option Nat
  p4est_abort_data : Nat
  signals_caught : Bool
  system_int_handler : Disposition
  system_segv_handler : Disposition
  system_usr2_handler : Disposition
deriving DecidableEq, Repr

/-- The OS-side dispositions currently installed for the three watched
signals `SIGINT`, `SIGSEGV`, `SIGUSR2`. -/
structure OSState where
  int_disp : Disposition
  segv_disp : Disposition
  usr2_disp : Disposition
deriving DecidableEq, Repr

/-- `p4est_set_abort_handler (identifier, handler, data)`: store the three
arguments unconditionally; if `handler != NULL && !signals_caught`, save the
previous OS dispositions (the return values of `signal`) and install
`p4est_signal_handler` for `INT`, `SEGV`, `USR2`; else if
`handler == NULL && signals_caught`, write the saved dispositions back,
reset the saved slots to `NULL` and clear `signals_caught`.  The `signal`
calls are modelled as succeeding (never `SIG_ERR`), so the
`P4EST_CHECK_ABORT` guards on the install path are not reached. -/
def p4est_set_abort_handler (identifier : Int) (handler : Option Nat)
    (data : Nat) (st : FaultState) (os : OSState) : FaultState × OSState :=
  let st1 :=
    { st with
      p4est_base_identifier := identifier
      p4est_abort_handler := handler
      p4est_abort_data := data }
  if handler.isSome && !st1.signals_caught then
    ({ st1 with
        system_int_handler := os.int_disp
        system_segv_handler := os.segv_disp
        system_usr2_handler := os.usr2_disp
        signals_caught := true },
      { int_disp := Disposition.p4est_internal
        segv_disp := Disposition.p4est_internal
        usr2_disp := Disposition.p4est_internal })
  else if handler.isNone && st1.signals_caught then
    ({ st1 with
        system_int_handler := Disposition.dfl
        system_segv_handler := Disposition.dfl
        system_usr2_handler := Disposition.dfl
        signals_caught := false },
      { int_disp := st1.system_int_handler
        segv_disp := st1.system_segv_handler
        usr2_disp := st1.system_usr2_handler })
  else
    (st1, os)

/-- `strrchr (s, C-slash)` followed by `++str`: the suffix of the character
list after its last slash — the whole list when it contains no slash. -/
def afterLastSlash : List Char → List Char
  | [] => []
  | c :: rest =>
    if rest.contains '/' then afterLastSlash rest
    else if c = '/' then rest
    else c :: rest

/-- Basename extraction applied by `p4est_abort` to each backtrace symbol. -/
def strip_to_basename (s : String) : String := String.mk (afterLastSlash s.data)

/-- The prefix `p4est_abort` formats into `prefix[]`: `"[%d] "` from the
identifier when `p4est_base_identifier >= 0`, otherwise the empty string. -/
def identPfx (id : Int) : String :=
  if 0 ≤ id then "[" ++ toString id ++ "] " else ""

/-- The lines `p4est_abort` writes to `stderr` when `P4EST_BACKTRACE` is
compiled in, given the identifier and the captured backtrace symbol strings:
`"%sAbort: Obtained %ld stack frames\n"` then one `"%s   %s\n"` per frame
with the symbol stripped to its basename. -/
def p4est_abort_lines (id : Int) (frames : List String) : List String :=
  (identPfx id ++ "Abort: Obtained " ++ toString frames.length ++ " stack frames")
    :: frames.map (fun s => identPfx id ++ "   " ++ strip_to_basename s)

/-- The line format asserted by the spec, read literally: a header
`"[N] Abort: Obtained <count> stack frames"` then one line
`"[N]   <symbol>"` per frame (three characters between `"]"` and the
basename), the `"[N] "` prefix omitted from every line when no identifier
is set. -/
def claimed_abort_lines (id : Int) (frames : List String) : List String :=
  if 0 ≤ id then
    ("[" ++ toString id ++ "] Abort: Obtained " ++ toString frames.length
        ++ " stack frames")
      :: frames.map (fun s => "[" ++ toString id ++ "]   " ++ strip_to_basename s)
  else
    ("Abort: Obtained " ++ toString frames.length ++ " stack frames")
      :: frames.map (fun s => "  " ++ strip_to_basename s)

/-- The line format of the source: as `claimed_abort_lines` but with the
`"[N] "` prefix followed by three further spaces on frame lines (four
characters between `"]"` and the basename; three spaces before the basename
when no identifier is set). -/
def claimed_abort_lines_fixed (id : Int) (frames : List String) : List String :=
  if 0 ≤ id then
    ("[" ++ toString id ++ "] Abort: Obtained " ++ toString frames.length
        ++ " stack frames")
      :: frames.map (fun s => "[" ++ toString id ++ "]    " ++ strip_to_basename s)
  else
    ("Abort: Obtained " ++ toString frames.length ++ " stack frames")
      :: frames.map (fun s => "   " ++ strip_to_basename s)

/-- The allocated-counter increment as claim C2 states it, keyed on a size
key `k`: `1` whenever `k > 0` regardless of the delegate's result, else `1`
exactly when the delegate returned non-`NULL`. -/
def claimAllocDelta (k : Nat) (ret_null : Bool) : Nat :=
  if 0 < k then 1 else if ret_null then 0 else 1

/-- C2 (amended): `p4est_malloc size` adds `claimAllocDelta size` to the
allocated counter (1 unconditionally for `size > 0`, else 1 iff the delegate
returned non-`NULL`) and leaves the freed counter alone; `p4est_calloc`
follows the identical policy keyed on the product `nmemb * size` computed in
`size_t` arithmetic, i.e. modulo `2 ^ 64`, being greater than 0. -/
theorem claim_C2_alloc_counting :
    (∀ (size : Nat) (ret_null : Bool) (c : Counters),
      p4est_malloc size ret_null c =
        { c with malloc_count := c.malloc_count + claimAllocDelta size ret_null }) ∧
    (∀ (nmemb size : Nat) (ret_null : Bool) (c : Counters),
      p4est_calloc nmemb size ret_null c =
        { c with malloc_count :=
            c.malloc_count + claimAllocDelta (nmemb * size % 2 ^ 64) ret_null }) := by
  constructor
  · intro size ret_null c
    obtain ⟨m, f⟩ := c
    simp only [p4est_malloc, claimAllocDelta]
    split_ifs <;> rfl
  · intro nmemb size ret_null c
    obtain ⟨m, f⟩ := c
    simp only [p4est_calloc, claimAllocDelta]
    split_ifs <;> rfl

/-- C2 fails as literally stated: at `nmemb = size = 2 ^ 32` the exact
product is positive, so the claimed policy adds 1 to the allocated counter
even when the delegate returns `NULL`; but the code's `size_t`
multiplication wraps to 0, so `p4est_calloc` leaves the counter unchanged
when the delegate returns `NULL`. -/
theorem claim_C2_counterexample :
    0 < 2 ^ 32 * 2 ^ 32 ∧
    claimAllocDelta (2 ^ 32 * 2 ^ 32) true = 1 ∧
    (p4est_calloc (2 ^ 32) (2 ^ 32) true (Counters.mk 0 0)).malloc_count = 0 := by
  have hprod : (2 ^ 32 * 2 ^ 32 : Nat) % 2 ^ 64 = 0 := by norm_num
  refine ⟨by norm_num, ?_, ?_⟩
  · rw [claimAllocDelta, if_pos (by norm_num)]
  · rw [p4est_calloc, hprod]
    rfl

/-- C4: `p4est_memory_check` succeeds exactly when the two counters agree
and fails with the fatal "Memory balance" abort exactly when they differ. -/
theorem claim_C4_memory_check :
    ∀ c : Counters,
      (p4est_memory_check c = Except.ok () ↔ c.malloc_count = c.free_count) ∧
      (p4est_memory_check c = Except.error "Memory balance" ↔
        c.malloc_count ≠ c.free_count) := by
  intro c
  unfold p4est_memory_check P4EST_CHECK_ABORT
  by_cases h : c.malloc_count = c.free_count <;> simp [h]

/-- C5: `p4est_realloc` with a `NULL` pointer updates the counters exactly
as `p4est_malloc` of the same size does; with a non-`NULL` pointer and size
0 it increments the freed counter iff the delegate returned `NULL`, leaving
the allocated counter alone. -/
theorem claim_C5_realloc_counting :
    (∀ (size : Nat) (ret_null : Bool) (c : Counters),
      p4est_realloc true size ret_null c = p4est_malloc size ret_null c) ∧
    (∀ (ret_null : Bool) (c : Counters),
      (p4est_realloc false 0 ret_null c).free_count =
        c.free_count + (if ret_null then 1 else 0) ∧
      (p4est_realloc false 0 ret_null c).malloc_count = c.malloc_count) := by
  constructor
  · intro size ret_null c
    rfl
  · intro ret_null c
    obtain ⟨m, f⟩ := c
    cases ret_null <;> simp [p4est_realloc]

/-- C6: `p4est_free` on a `NULL` pointer changes neither counter and does
not call the platform `free`; on a non-`NULL` pointer it increments the
freed counter by exactly 1, leaves the allocated counter alone, and calls
the platform `free`. -/
theorem claim_C6_free_counting :
    ∀ c : Counters,
      p4est_free true c = (c, false) ∧
      (p4est_free false c).1.free_count = c.free_count + 1 ∧
      (p4est_free false c).1.malloc_count = c.malloc_count ∧
      (p4est_free false c).2 = true := by
  intro c
  exact ⟨rfl, rfl, rfl, rfl⟩

/-- C10: `p4est_realloc` on a non-`NULL` pointer with a positive size
changes neither counter, whether or not the delegate succeeds. -/
theorem claim_C10_realloc_frame (size : Nat) (ret_null : Bool) (c : Counters)
    (h : 0 < size) : p4est_realloc false size ret_null c = c := by
  simp [p4est_realloc, h.ne']

/-- Witness for C10 at `size = 5`, a failing delegate and counters (2, 1). -/
theorem claim_C10_realloc_frame_w :
    0 < 5 ∧ p4est_realloc false 5 true (Counters.mk 2 1) = Counters.mk 2 1 :=
  ⟨by decide, claim_C10_realloc_frame 5 true (Counters.mk 2 1) (by decide)⟩

/-- C3 evaluated at the failing input: the source computes
`(int32_t) v1 - (int32_t) v2` in wrapping 32-bit arithmetic, so at
`a = -2 ^ 31`, `b = 1` (where `a < b`, demanding a negative result) the
comparator returns the positive value `2 ^ 31 - 1`: an overflow-induced
sign flip, contradicting the claim. -/
theorem claim_C3_overflow_eval :
    p4est_int32_compare (-(2 ^ 31)) 1 = 2 ^ 31 - 1 ∧
    (-(2 ^ 31) : Int) < 1 ∧
    0 < p4est_int32_compare (-(2 ^ 31)) 1 := by
  refine ⟨by decide, by decide, by decide⟩

set_option maxRecDepth 40000 in
/-- Decidable characterisation of the lookup table: entry 0 is `-1`, and
for `0 < v` the entry `e` is nonnegative with `2 ^ e ≤ v < 2 ^ (e + 1)`. -/
theorem log2_floor_char :
    ∀ v : Fin 256,
      (v.val = 0 → log2_floor v = -1) ∧
      (0 < v.val →
        0 ≤ log2_floor v ∧
        2 ^ (log2_floor v).toNat ≤ v.val ∧
        v.val < 2 ^ ((log2_floor v).toNat + 1)) := by decide

/-- C9: for every byte value, the lookup table yields `-1` at 0 and
`⌊log₂ v⌋` (as `Nat.log2`) for `v ≥ 1`; in particular `-1, 0, 7, 7` at
`0, 1, 128, 255`. -/
theorem claim_C9_log2_table :
    ∀ v : Fin 256,
      log2_floor v = if v.val = 0 then -1 else (Nat.log2 v.val : Int) := by
  intro v
  obtain ⟨hz, hp⟩ := log2_floor_char v
  by_cases h : v.val = 0
  · rw [if_pos h]
    exact hz h
  · obtain ⟨h0, h1, h2⟩ := hp (Nat.pos_of_ne_zero h)
    have hlog : Nat.log 2 v.val = (log2_floor v).toNat :=
      Nat.log_eq_of_pow_le_of_lt_pow h1 h2
    rw [if_neg h, Nat.log2_eq_log_two, hlog, Int.toNat_of_nonneg h0]

/-- C1: from the uninstalled state, installing a non-null callback and then
immediately installing a null callback restores the OS dispositions for
`INT`, `SEGV` and `USR2` exactly, clears the installed flag, and leaves the
stored callback null and the saved-disposition slots reset. -/
theorem claim_C1_install_roundtrip (st : FaultState) (os : OSState)
    (id : Int) (cb ctx : Nat) (h : st.signals_caught = false) :
    (p4est_set_abort_handler id none ctx
        (p4est_set_abort_handler id (some cb) ctx st os).1
        (p4est_set_abort_handler id (some cb) ctx st os).2).2 = os ∧
    (p4est_set_abort_handler id none ctx
        (p4est_set_abort_handler id (some cb) ctx st os).1
        (p4est_set_abort_handler id (some cb) ctx st os).2).1 =
      { st with
          p4est_base_identifier := id
          p4est_abort_handler := none
          p4est_abort_data := ctx
          signals_caught := false
          system_int_handler := Disposition.dfl
          system_segv_handler := Disposition.dfl
          system_usr2_handler := Disposition.dfl } := by
  simp [p4est_set_abort_handler, h]

/-- A fault state with no handlers installed, used as a concrete witness. -/
def demo_uninstalled : FaultState :=
  FaultState.mk (-1) none 0 false Disposition.dfl Disposition.dfl
    Disposition.dfl

/-- A fault state with handlers installed and saved dispositions, used as a
concrete witness. -/
def demo_installed : FaultState :=
  FaultState.mk 2 (some 9) 4 true Disposition.ign (Disposition.custom 8)
    Disposition.dfl

/-- A concrete OS disposition triple used as a witness. -/
def demo_os : OSState :=
  OSState.mk Disposition.ign (Disposition.custom 5) Disposition.dfl

/-- Witness for C1 at identifier 7, callback 1, context 3, starting from
the uninstalled state and a nontrivial OS disposition triple. -/
theorem claim_C1_install_roundtrip_w :
    demo_uninstalled.signals_caught = false ∧
    ((p4est_set_abort_handler 7 none 3
        (p4est_set_abort_handler 7 (some 1) 3 demo_uninstalled demo_os).1
        (p4est_set_abort_handler 7 (some 1) 3 demo_uninstalled demo_os).2).2 =
      demo_os ∧
    (p4est_set_abort_handler 7 none 3
        (p4est_set_abort_handler 7 (some 1) 3 demo_uninstalled demo_os).1
        (p4est_set_abort_handler 7 (some 1) 3 demo_uninstalled demo_os).2).1 =
      { demo_uninstalled with
          p4est_base_identifier := 7
          p4est_abort_handler := none
          p4est_abort_data := 3
          signals_caught := false
          system_int_handler := Disposition.dfl
          system_segv_handler := Disposition.dfl
          system_usr2_handler := Disposition.dfl }) :=
  ⟨rfl, claim_C1_install_roundtrip demo_uninstalled demo_os 7 1 3 rfl⟩

/-- C7: installing a non-null callback while handlers are already installed
stores the new identifier, callback and context but changes nothing else:
the OS dispositions, the saved dispositions and the installed flag are all
left as they were. -/
theorem claim_C7_rebind (st : FaultState) (os : OSState) (id : Int)
    (cb ctx : Nat) (h : st.signals_caught = true) :
    (p4est_set_abort_handler id (some cb) ctx st os).2 = os ∧
    (p4est_set_abort_handler id (some cb) ctx st os).1 =
      { st with
          p4est_base_identifier := id
          p4est_abort_handler := some cb
          p4est_abort_data := ctx } := by
  simp [p4est_set_abort_handler, h]

/-- Witness for C7 at identifier 11, callback 6, context 5, starting from
an installed state. -/
theorem claim_C7_rebind_w :
    demo_installed.signals_caught = true ∧
    ((p4est_set_abort_handler 11 (some 6) 5 demo_installed demo_os).2 =
      demo_os ∧
    (p4est_set_abort_handler 11 (some 6) 5 demo_installed demo_os).1 =
      { demo_installed with
          p4est_base_identifier := 11
          p4est_abort_handler := some 6
          p4est_abort_data := 5 }) :=
  ⟨rfl, claim_C7_rebind demo_installed demo_os 11 6 5 rfl⟩

set_option maxRecDepth 40000 in
/-- C8 fails as literally stated: with identifier 7 and two captured frames
the code emits `"[7]    <basename>"` frame lines — the `"[7] "` prefix
followed by the three spaces of the `"%s   %s"` format, i.e. four
characters between `"]"` and the basename — not the claimed
`"[7]   <basename>"`. -/
theorem claim_C8_format_counterexample :
    p4est_abort_lines 7 ["bin/prog(main+0x1a)", "libc.so"] =
      ["[7] Abort: Obtained 2 stack frames",
       "[7]    prog(main+0x1a)",
       "[7]    libc.so"] ∧
    p4est_abort_lines 7 ["bin/prog(main+0x1a)", "libc.so"] ≠
      claimed_abort_lines 7 ["bin/prog(main+0x1a)", "libc.so"] := by
  refine ⟨by decide, by decide⟩

/-- C8 (amended): the diagnostic lines are exactly a header
`"[N] Abort: Obtained <count> stack frames"` followed by one line
`"[N]    <symbol>"` per captured frame — the `"[N] "` prefix and three
spaces before the basename-stripped symbol — and the `"[N] "` prefix is
omitted from every line when no identifier is set. -/
theorem claim_C8_format_amended (id : Int) (frames : List String) :
    p4est_abort_lines id frames = claimed_abort_lines_fixed id frames := by
  by_cases h : 0 ≤ id
  · simp only [p4est_abort_lines, claimed_abort_lines_fixed, identPfx,
      if_pos h]
    refine congrArg₂ List.cons ?_ ?_
    · rw [String.append_assoc ("[" ++ toString id) "] " "Abort: Obtained "]
      rfl
    · refine List.map_congr_left ?_
      intro s _
      rw [String.append_assoc ("[" ++ toString id) "] " "   "]
      rfl
  · simp only [p4est_abort_lines, claimed_abort_lines_fixed, identPfx,
      if_neg h]
    rfl

end P4estBase
